import Mathlib

/-!
Verification of the Euler's-spiral walker (`src/script.js`).

The script is a single-file generative-curve renderer: module-level mutable
globals hold the walker state (position, heading `direction`, compounding
heading increment `angleAddend`), the ever-growing point list, the running
bounding extent (`minX`/`maxX`/`minY`/`maxY`), the playback parameters, and a
`running` flag.  We embed those globals as one record `St K` over an arbitrary
linear ordered field `K` (the script computes with IEEE doubles; we model the
real-arithmetic behaviour).  The two trigonometric calls
`Math.cos(direction * Math.PI/180)` and `Math.sin(direction * Math.PI/180)`
are abstracted as explicit function arguments `c sn : K → K`; theorems that
depend on actual trigonometry instantiate them over `ℝ` with
`fun θ => Real.cos (θ * Real.pi / 180)` and the sine analogue, exactly the
composite expressions appearing in the source.  Canvas output is modelled as
a trace of events (`Ev`): one `Ev.fill` per `clear()` and one `Ev.stroke`
per `beginPath … stroke` block; `draw()` reads `points[0].x` unguarded, so it
is embedded as an `Option`-valued trace, `none` on an empty point list
(the JavaScript would throw a TypeError there).
-/

namespace EulersSpiral

/-- A point on the curve (`{x, y}` object literals pushed into `points`). -/
structure Point (K : Type) where
  x : K
  y : K
  deriving DecidableEq

/-- The record returned by `getWindowData()` (lines 55-70). -/
structure WindowData (K : Type) where
  centerX : K
  centerY : K
  width : K
  height : K
  maxSize : K
  scaleFactor : K
  deriving DecidableEq

/-- Observable canvas events: `fill` for a `clear()` call
(`fillRect` over the whole canvas), `stroke` for one
`beginPath`/`moveTo`/`lineTo…`/`stroke` block, carrying the path vertices. -/
inductive Ev (K : Type) where
  | fill : Ev K
  | stroke : List (Point K) → Ev K
  deriving DecidableEq

/-- The script's module-level mutable globals (lines 26-49, 166-168)
gathered into one state record. -/
structure St (K : Type) where
  frameRate : K
  drawsPerFrame : K
  stepSize : K
  angleStepSize : K
  points : List (Point K)
  running : Bool
  pointX : K
  pointY : K
  direction : K
  angleAddend : K
  minX : K
  maxX : K
  minY : K
  maxY : K
  stepAmount : K
  resetAfterChange : Bool
  deriving DecidableEq

variable {K : Type} [LinearOrderedField K]

/-- `let screenWidth = 600` (line 13). -/
def screenWidth (K : Type) [LinearOrderedField K] : K := 600

/-- `let screenHeight = 600` (line 14). -/
def screenHeight (K : Type) [LinearOrderedField K] : K := 600

/-- The initial values of all module-level globals: parameters at their
defaults (lines 26-30, 166-168), empty point list, walker at the origin with
heading and increment `0` (lines 36-43), and the screen-sized initial extent
`±screenWidth/2`, `±screenHeight/2` (lines 46-49). -/
def initSt (K : Type) [LinearOrderedField K] : St K :=
  { frameRate := 60
    drawsPerFrame := 1
    stepSize := 20
    angleStepSize := 10
    points := []
    running := false
    pointX := 0
    pointY := 0
    direction := 0
    angleAddend := 0
    minX := -(screenWidth K / 2)
    maxX := screenWidth K / 2
    minY := -(screenHeight K / 2)
    maxY := screenHeight K / 2
    stepAmount := 1
    resetAfterChange := false }

/-- `getWindowData()` (lines 55-70). -/
def getWindowData (s : St K) : WindowData K :=
  let centerX := (s.minX + s.maxX) / 2
  let centerY := (s.minY + s.maxY) / 2
  let width := s.maxX - s.minX
  let height := s.maxY - s.minY
  let maxSize := max width height
  let scaleFactor := maxSize / max (screenWidth K) (screenHeight K)
  { centerX := centerX, centerY := centerY, width := width, height := height,
    maxSize := maxSize, scaleFactor := scaleFactor }

/-- `transformPoint(x, y, win)` (lines 79-84). -/
def transformPoint (x y : K) (win : WindowData K) : Point K :=
  { x := (x - win.centerX) / (win.maxSize + 10) * max (screenWidth K) (screenHeight K)
    y := (y - win.centerY) / (win.maxSize + 10) * max (screenWidth K) (screenHeight K) }

/-- `update()` (lines 108-120).  The two trig calls
`Math.cos(direction * Math.PI/180)` and `Math.sin(direction * Math.PI/180)`
are the arguments `c` and `sn`, applied to the current `direction`. -/
def update (c sn : K → K) (s : St K) : St K :=
  let pointX := s.pointX + c s.direction * s.stepSize
  let pointY := s.pointY + sn s.direction * s.stepSize
  { s with
    pointX := pointX
    pointY := pointY
    direction := s.direction + s.angleAddend
    angleAddend := s.angleAddend + s.angleStepSize
    points := s.points ++ [{ x := pointX, y := pointY }]
    minX := min s.minX pointX
    maxX := max s.maxX pointX
    minY := min s.minY pointY
    maxY := max s.maxY pointY }

/-- The straight-line assignments of `reset()` before its `update()` call
(lines 88-98): walker zeroed, extent collapsed to the origin box, point list
emptied.  Parameters and the `running` flag are untouched. -/
def zeroed (s : St K) : St K :=
  { s with
    pointX := 0
    pointY := 0
    direction := 0
    angleAddend := 0
    minX := 0
    maxX := 0
    minY := 0
    maxY := 0
    points := [] }

/-- `clear()` (lines 103-106): one full-canvas fill. -/
def clearTrace (K : Type) : List (Ev K) := [Ev.fill]

/-- `draw()` (lines 122-148): clears, then strokes one path that moves to the
transformed `points[0]` and lines through every transformed point.  Reading
`points[0].x` on an empty list would throw in JavaScript, so the trace is
`none` exactly when `points` is empty. -/
def draw (s : St K) : Option (List (Ev K)) :=
  match s.points with
  | [] => none
  | p0 :: _ =>
    let win := getWindowData s
    some (clearTrace K ++
      [Ev.stroke (transformPoint p0.x p0.y win ::
        s.points.map (fun p => transformPoint p.x p.y win))])

/-- `reset()` (lines 86-101): `clear()`, zero the walker state and extent,
empty the point list, then one `update()` call, then `draw()`.  Returns the
new state and the canvas trace of the whole call. -/
def reset (c sn : K → K) (s : St K) : St K × Option (List (Ev K)) :=
  let s2 := update c sn (zeroed s)
  (s2, (draw s2).map (fun evs => clearTrace K ++ evs))

/-- `tryClear()` (lines 170-172): `if (resetAfterChange) reset();`.
Defined in the source but never invoked by any handler. -/
def tryClear (c sn : K → K) (s : St K) : St K × Option (List (Ev K)) :=
  if s.resetAfterChange then reset c sn s else (s, some [])

/-- The "Start" button handler (lines 174-176). -/
def startButton (s : St K) : St K := { s with running := true }

/-- The "Stop" button handler (lines 177-179). -/
def stopButton (s : St K) : St K := { s with running := false }

/-- JavaScript numbers as produced by `parseInt`/`parseFloat`: either a
numeric value or `NaN`. -/
inductive JSNum (K : Type) where
  | num : K → JSNum K
  | nan : JSNum K
  deriving DecidableEq

/-- JavaScript loose inequality `!=` on `parseInt`/`parseFloat` results:
`NaN == x` is false for every `x` (including `NaN` itself), so `x != NaN`
is true for every `x`. -/
def jsNe [DecidableEq K] : JSNum K → JSNum K → Bool
  | JSNum.num a, JSNum.num b => decide (a ≠ b)
  | _, _ => true

/-- The body shared by every `addNumber` handler (lines 188-192, 202-206,
208-212, 214-218, 220-224) acting on its one parameter cell, `NaN` input
included: `let value = parse…(…); if (value != NaN) cell = value;`. -/
def numberHandlerCell [DecidableEq K] (parsed cell : JSNum K) : JSNum K :=
  if jsNe parsed JSNum.nan then parsed else cell

/-- The "Steps" handler (lines 188-192) on the numeric path (`parseInt`
returned the number `v`); the guard is `value != NaN` verbatim.  The
`NaN` path, which `K` cannot represent, is `numberHandlerCell`. -/
def stepsHandler (v : K) (s : St K) : St K :=
  if jsNe (JSNum.num v) JSNum.nan then { s with stepAmount := v } else s

/-- The "Framerate" handler (lines 202-206) on the numeric path. -/
def frameRateHandler (v : K) (s : St K) : St K :=
  if jsNe (JSNum.num v) JSNum.nan then { s with frameRate := v } else s

/-- The "draw()'s per frame" handler (lines 208-212) on the numeric path. -/
def drawsPerFrameHandler (v : K) (s : St K) : St K :=
  if jsNe (JSNum.num v) JSNum.nan then { s with drawsPerFrame := v } else s

/-- The "Step size" handler (lines 214-218) on the numeric path. -/
def stepSizeHandler (v : K) (s : St K) : St K :=
  if jsNe (JSNum.num v) JSNum.nan then { s with stepSize := v } else s

/-- The "Direction step size" handler (lines 220-224) on the numeric path. -/
def angleStepSizeHandler (v : K) (s : St K) : St K :=
  if jsNe (JSNum.num v) JSNum.nan then { s with angleStepSize := v } else s

/-- The "Reset on change" checkbox handler (lines 228-230): assigns the flag. -/
def resetOnChangeHandler (b : Bool) (s : St K) : St K :=
  { s with resetAfterChange := b }

/-- States reachable from the initial globals by the state-mutating
operations of the script: `update()` (ticks and the Step button), `reset()`
(the Reset button), the Start/Stop buttons, and every input handler. -/
inductive Reach (c sn : K → K) : St K → Prop where
  | init : Reach c sn (initSt K)
  | step {s : St K} : Reach c sn s → Reach c sn (update c sn s)
  | resetBtn {s : St K} : Reach c sn s → Reach c sn (reset c sn s).1
  | startBtn {s : St K} : Reach c sn s → Reach c sn (startButton s)
  | stopBtn {s : St K} : Reach c sn s → Reach c sn (stopButton s)
  | setSteps {s : St K} (v : K) : Reach c sn s → Reach c sn (stepsHandler v s)
  | setFrameRate {s : St K} (v : K) : Reach c sn s → Reach c sn (frameRateHandler v s)
  | setDrawsPerFrame {s : St K} (v : K) : Reach c sn s → Reach c sn (drawsPerFrameHandler v s)
  | setStepSize {s : St K} (v : K) : Reach c sn s → Reach c sn (stepSizeHandler v s)
  | setAngleStepSize {s : St K} (v : K) : Reach c sn s → Reach c sn (angleStepSizeHandler v s)
  | setResetOnChange {s : St K} (b : Bool) : Reach c sn s → Reach c sn (resetOnChangeHandler b s)

/-- The heading the walker holds after `k` updates from the zeroed state:
`d·k·(k−1)/2` for increment delta `d` (closed form, proved below to match
`update`). -/
def dirAt (d : K) (k : ℕ) : K := d * k * (k - 1) / 2

/-- Closed form of the walker's x coordinate after `k` updates from the
zeroed state (abstract cosine `c`, step length `L`, delta `d`). -/
def walkX (c : K → K) (L d : K) : ℕ → K
  | 0 => 0
  | k + 1 => walkX c L d k + c (dirAt d k) * L

/-- Closed form of the walker's y coordinate after `k` updates from the
zeroed state (abstract sine `sn`). -/
def walkY (sn : K → K) (L d : K) : ℕ → K
  | 0 => 0
  | k + 1 => walkY sn L d k + sn (dirAt d k) * L

/-- Master characterization of `n` `update()` calls from the zeroed state:
walker position follows the closed forms `walkX`/`walkY`, the heading is
`dirAt` (`d·n·(n−1)/2`), the increment is `d·n`, the point list is the first
`n` walk positions in order, and each extent component is the corresponding
`min`/`max` fold, seeded with `0`, over the generated coordinates. -/
theorem iterate_zeroed_spec (c sn : K → K) (s : St K) (n : ℕ) :
    (update c sn)^[n] (zeroed s) =
      { s with
        pointX := walkX c s.stepSize s.angleStepSize n
        pointY := walkY sn s.stepSize s.angleStepSize n
        direction := dirAt s.angleStepSize n
        angleAddend := s.angleStepSize * n
        points := (List.range n).map (fun k =>
          { x := walkX c s.stepSize s.angleStepSize (k + 1)
            y := walkY sn s.stepSize s.angleStepSize (k + 1) })
        minX := ((List.range n).map
          (fun k => walkX c s.stepSize s.angleStepSize (k + 1))).foldl min 0
        maxX := ((List.range n).map
          (fun k => walkX c s.stepSize s.angleStepSize (k + 1))).foldl max 0
        minY := ((List.range n).map
          (fun k => walkY sn s.stepSize s.angleStepSize (k + 1))).foldl min 0
        maxY := ((List.range n).map
          (fun k => walkY sn s.stepSize s.angleStepSize (k + 1))).foldl max 0 } := by
  induction n with
  | zero =>
    simp [zeroed, walkX, walkY, dirAt]
  | succ n ih =>
    rw [Function.iterate_succ_apply', ih]
    simp only [update, List.range_succ, List.map_append, List.foldl_append,
      List.map_cons, List.map_nil, List.foldl_cons, List.foldl_nil, St.mk.injEq]
    and_intros <;>
      first
        | rfl
        | trivial
        | (push_cast [dirAt]; ring)

/-- Recognizes the stroke events (path drawings) in a canvas trace. -/
def isStroke : Ev K → Bool
  | Ev.stroke _ => true
  | Ev.fill => false

/-- A reachable-by-hand state with the reset-on-change flag set and two
generated points, used to exercise the parameter setters. -/
def flaggedSt : St ℚ :=
  { initSt ℚ with
    resetAfterChange := true
    points := [{ x := 20, y := 0 }, { x := 40, y := 0 }]
    pointX := 40
    angleAddend := 20
    minX := 0
    maxX := 40
    minY := 0
    maxY := 0 }

/-- C3: the guard `if (value != NaN)` in every number handler is vacuous,
because in JavaScript `x != NaN` is true for every `x`, `NaN` included; a
non-numeric input therefore sets the parameter cell to `NaN` instead of
retaining the previous value (here: previous value `20`, input parsed to
`NaN`, cell ends as `NaN`, not `20`). -/
theorem number_handler_nan_sets_nan :
    numberHandlerCell (JSNum.nan : JSNum ℚ) (JSNum.num 20) = JSNum.nan ∧
    numberHandlerCell (JSNum.nan : JSNum ℚ) (JSNum.num 20) ≠ JSNum.num 20 := by
  decide

/-- C2: with the reset-on-change flag true, every parameter setter in the
source performs only its own assignment — none of them calls `tryClear()` or
`reset()`.  On a flagged state holding two points, each setter returns the
state with just the one parameter changed; in particular the point sequence
still has its two points afterwards, which `reset()` (leaving exactly one
point) would have destroyed. -/
theorem param_setters_ignore_reset_flag :
    flaggedSt.resetAfterChange = true ∧
    stepSizeHandler (5 : ℚ) flaggedSt = { flaggedSt with stepSize := 5 } ∧
    angleStepSizeHandler (5 : ℚ) flaggedSt = { flaggedSt with angleStepSize := 5 } ∧
    frameRateHandler (30 : ℚ) flaggedSt = { flaggedSt with frameRate := 30 } ∧
    drawsPerFrameHandler (2 : ℚ) flaggedSt = { flaggedSt with drawsPerFrame := 2 } ∧
    stepsHandler (3 : ℚ) flaggedSt = { flaggedSt with stepAmount := 3 } ∧
    (stepSizeHandler (5 : ℚ) flaggedSt).points.length = 2 := by
  decide

/-- C1 counterexample: after `reset()` on the freshly constructed state, the
point sequence is not empty (reset() itself calls `update()` once), refuting
"position (0,0), heading-increment 0 and empty Point Sequence". -/
theorem reset_not_pristine_cex :
    ¬ (((reset (fun θ : ℝ => Real.cos (θ * Real.pi / 180))
          (fun θ : ℝ => Real.sin (θ * Real.pi / 180)) (initSt ℝ)).1).points = [] ∧
        ((reset (fun θ : ℝ => Real.cos (θ * Real.pi / 180))
          (fun θ : ℝ => Real.sin (θ * Real.pi / 180)) (initSt ℝ)).1).angleAddend = 0) := by
  intro h
  have h1 := h.1
  simp [reset, update, zeroed] at h1

/-- C1 amended: `reset()` zeroes the walker and then performs one internal
`update()`, so with zero subsequent steps the state has heading 0, increment
equal to the configured delta, position `(stepSize, 0)` (the step taken at
heading 0), and a one-point sequence `[(stepSize, 0)]`; parameters and the
running flag are preserved.  This is not the freshly constructed state,
whose sequence is empty, increment 0 and position `(0, 0)`. -/
theorem reset_state_spec (s : St ℝ) :
    ((reset (fun θ : ℝ => Real.cos (θ * Real.pi / 180))
        (fun θ : ℝ => Real.sin (θ * Real.pi / 180)) s).1).direction = 0 ∧
    ((reset (fun θ : ℝ => Real.cos (θ * Real.pi / 180))
        (fun θ : ℝ => Real.sin (θ * Real.pi / 180)) s).1).angleAddend = s.angleStepSize ∧
    ((reset (fun θ : ℝ => Real.cos (θ * Real.pi / 180))
        (fun θ : ℝ => Real.sin (θ * Real.pi / 180)) s).1).pointX = s.stepSize ∧
    ((reset (fun θ : ℝ => Real.cos (θ * Real.pi / 180))
        (fun θ : ℝ => Real.sin (θ * Real.pi / 180)) s).1).pointY = 0 ∧
    ((reset (fun θ : ℝ => Real.cos (θ * Real.pi / 180))
        (fun θ : ℝ => Real.sin (θ * Real.pi / 180)) s).1).points
      = [{ x := s.stepSize, y := 0 }] ∧
    ((reset (fun θ : ℝ => Real.cos (θ * Real.pi / 180))
        (fun θ : ℝ => Real.sin (θ * Real.pi / 180)) s).1).minX = min 0 s.stepSize ∧
    ((reset (fun θ : ℝ => Real.cos (θ * Real.pi / 180))
        (fun θ : ℝ => Real.sin (θ * Real.pi / 180)) s).1).maxX = max 0 s.stepSize ∧
    ((reset (fun θ : ℝ => Real.cos (θ * Real.pi / 180))
        (fun θ : ℝ => Real.sin (θ * Real.pi / 180)) s).1).minY = 0 ∧
    ((reset (fun θ : ℝ => Real.cos (θ * Real.pi / 180))
        (fun θ : ℝ => Real.sin (θ * Real.pi / 180)) s).1).maxY = 0 ∧
    ((reset (fun θ : ℝ => Real.cos (θ * Real.pi / 180))
        (fun θ : ℝ => Real.sin (θ * Real.pi / 180)) s).1).running = s.running ∧
    ((reset (fun θ : ℝ => Real.cos (θ * Real.pi / 180))
        (fun θ : ℝ => Real.sin (θ * Real.pi / 180)) s).1).stepSize = s.stepSize ∧
    ((reset (fun θ : ℝ => Real.cos (θ * Real.pi / 180))
        (fun θ : ℝ => Real.sin (θ * Real.pi / 180)) s).1).angleStepSize = s.angleStepSize := by
  and_intros <;> simp [reset, update, zeroed]

/-- C7 counterexample: the Reset button handler only calls `reset()`, which
never touches the `running` flag; invoked while Running, the controller is
still Running afterwards, refuting "transitions the controller to Stopped". -/
theorem reset_keeps_running_cex :
    ¬ (((reset (fun θ : ℝ => Real.cos (θ * Real.pi / 180))
          (fun θ : ℝ => Real.sin (θ * Real.pi / 180))
          (startButton (initSt ℝ))).1).running = false) := by
  simp [reset, update, zeroed, startButton]

/-- C7 amended: `reset()` is valid in either controller state and leaves the
Running/Stopped state unchanged; it clears the generator and extent state,
performs one internal generator step (so one point remains), and performs
exactly one redraw — of that one-point scene, not of an empty one. -/
theorem reset_controller_spec (c sn : K → K) (s : St K) :
    ((reset c sn s).1).running = s.running ∧
    ((reset c sn s).1).direction = 0 ∧
    ((reset c sn s).1).points.length = 1 ∧
    ∃ evs, (reset c sn s).2 = some evs ∧ (evs.filter isStroke).length = 1 := by
  refine ⟨rfl, by simp [reset, update, zeroed], by simp [reset, update, zeroed], ?_⟩
  refine ⟨_, rfl, ?_⟩
  simp [reset, draw, update, zeroed, clearTrace, isStroke]

/-- C10: the redraw routine is only defined on a non-empty point sequence —
`draw()` reads `points[0]` unguarded, so its trace is `none` exactly on an
empty sequence — and `reset()` appends one point via its internal `update()`
before drawing, so the draw inside `reset()` always succeeds. -/
theorem draw_requires_point (c sn : K → K) (s : St K) :
    (draw s).isSome = !s.points.isEmpty ∧ ((reset c sn s).2).isSome = true := by
  constructor
  · cases h : s.points <;> simp [draw, h]
  · simp [reset, draw, update, zeroed]

/-- Every reachable state has a well-formed extent: `minX ≤ maxX` and
`minY ≤ maxY`.  Holds initially (screen box) and is preserved by `update()`
(min/max folds), `reset()` (origin box folded with one point) and every
handler (extent untouched). -/
theorem reach_extent_wf {c sn : K → K} {s : St K} (h : Reach c sn s) :
    s.minX ≤ s.maxX ∧ s.minY ≤ s.maxY := by
  induction h with
  | init =>
    constructor <;> norm_num [initSt, screenWidth, screenHeight]
  | step h ih =>
    refine ⟨?_, ?_⟩ <;> simp only [update]
    · exact le_trans (min_le_left _ _) (le_trans ih.1 (le_max_left _ _))
    · exact le_trans (min_le_left _ _) (le_trans ih.2 (le_max_left _ _))
  | resetBtn h ih =>
    refine ⟨?_, ?_⟩ <;> simp only [reset, update, zeroed]
    · exact le_trans (min_le_left _ _) (le_max_left _ _)
    · exact le_trans (min_le_left _ _) (le_max_left _ _)
  | startBtn h ih => exact ih
  | stopBtn h ih => exact ih
  | setSteps v h ih => simpa [stepsHandler, jsNe] using ih
  | setFrameRate v h ih => simpa [frameRateHandler, jsNe] using ih
  | setDrawsPerFrame v h ih => simpa [drawsPerFrameHandler, jsNe] using ih
  | setStepSize v h ih => simpa [stepSizeHandler, jsNe] using ih
  | setAngleStepSize v h ih => simpa [angleStepSizeHandler, jsNe] using ih
  | setResetOnChange b h ih => exact ih

/-- C8: at every reachable state the extent is well-formed, so the
normalization denominator `win.maxSize + 10` used by `transformPoint`
(and shared by both coordinates) is at least `10`, hence strictly positive:
the viewport transform never divides by zero, even on a degenerate
zero-width, zero-height extent. -/
theorem window_denominator_pos {c sn : K → K} {s : St K} (h : Reach c sn s) :
    s.minX ≤ s.maxX ∧ s.minY ≤ s.maxY ∧ 0 < (getWindowData s).maxSize + 10 := by
  obtain ⟨h1, h2⟩ := reach_extent_wf h
  refine ⟨h1, h2, ?_⟩
  have hw : (0 : K) ≤ s.maxX - s.minX := sub_nonneg.mpr h1
  have hm : (0 : K) ≤ (getWindowData s).maxSize :=
    le_trans hw (le_max_left _ _)
  linarith

/-- Witness for C8 at a concretely reachable state whose extent is the
degenerate box `{0,0,0,0}`: set the step length to `0`, then press Reset
(the single regenerated point is the origin). -/
theorem window_denominator_pos_w :
    ((reset (fun _ : ℚ => 1) (fun _ : ℚ => 0)
        (stepSizeHandler 0 (initSt ℚ))).1).minX ≤
      ((reset (fun _ : ℚ => 1) (fun _ : ℚ => 0)
        (stepSizeHandler 0 (initSt ℚ))).1).maxX ∧
    ((reset (fun _ : ℚ => 1) (fun _ : ℚ => 0)
        (stepSizeHandler 0 (initSt ℚ))).1).minY ≤
      ((reset (fun _ : ℚ => 1) (fun _ : ℚ => 0)
        (stepSizeHandler 0 (initSt ℚ))).1).maxY ∧
    0 < (getWindowData ((reset (fun _ : ℚ => 1) (fun _ : ℚ => 0)
        (stepSizeHandler 0 (initSt ℚ))).1)).maxSize + 10 :=
  window_denominator_pos (Reach.resetBtn (Reach.setStepSize 0 Reach.init))

/-- C5: starting from the zeroed walker state (heading 0, increment 0) with
increment delta `d`, the heading the walker holds after `k` updates — and
uses to compute point `k` (0-indexed): the point appended by the next
`update()` displaces the position by `(c(heading)·L, sn(heading)·L)` — is
exactly `d·k·(k−1)/2`.  Exact equality implies the claim's equality modulo a
full rotation. -/
theorem heading_compounding (c sn : K → K) (s : St K) (k : ℕ) :
    ((update c sn)^[k] (zeroed s)).direction
      = s.angleStepSize * k * (k - 1) / 2 ∧
    ((update c sn)^[k + 1] (zeroed s)).points[k]? =
      some { x := ((update c sn)^[k] (zeroed s)).pointX
                    + c (s.angleStepSize * k * (k - 1) / 2) * s.stepSize
             y := ((update c sn)^[k] (zeroed s)).pointY
                    + sn (s.angleStepSize * k * (k - 1) / 2) * s.stepSize } := by
  rw [iterate_zeroed_spec, iterate_zeroed_spec]
  constructor
  · simp [dirAt]
  · simp [List.getElem?_map, List.getElem?_range, walkX, walkY, dirAt]

/-- C4 amended: starting from the zeroed state that `reset()` establishes
before its internal step, every extent component after `n` updates is the
exact componentwise min/max fold over the point sequence seeded with the
origin value `0` (the extent contains the origin box in addition to the
points); and `update()` never shrinks any extent component. -/
theorem extent_tracks_points (c sn : K → K) (s : St K) (n : ℕ) :
    (((update c sn)^[n] (zeroed s)).minX
        = ((((update c sn)^[n] (zeroed s)).points.map Point.x).foldl min 0) ∧
      ((update c sn)^[n] (zeroed s)).maxX
        = ((((update c sn)^[n] (zeroed s)).points.map Point.x).foldl max 0) ∧
      ((update c sn)^[n] (zeroed s)).minY
        = ((((update c sn)^[n] (zeroed s)).points.map Point.y).foldl min 0) ∧
      ((update c sn)^[n] (zeroed s)).maxY
        = ((((update c sn)^[n] (zeroed s)).points.map Point.y).foldl max 0)) ∧
    ∀ t : St K,
      (update c sn t).minX ≤ t.minX ∧ t.maxX ≤ (update c sn t).maxX ∧
      (update c sn t).minY ≤ t.minY ∧ t.maxY ≤ (update c sn t).maxY := by
  constructor
  · rw [iterate_zeroed_spec]
    simp [List.map_map, Function.comp_def]
  · intro t
    refine ⟨?_, ?_, ?_, ?_⟩ <;> simp only [update]
    · exact min_le_left _ _
    · exact le_max_left _ _
    · exact min_le_left _ _
    · exact le_max_left _ _

/-- C4 counterexample: immediately after `reset()` on the fresh state
(step length 20), the extent is `minX = 0, maxX = 20, minY = maxY = 0` with
point sequence `[(20, 0)]`.  This refutes both "after reset() the extent is
the degenerate box `{0,0,0,0}`" (`maxX = 20 ≠ 0`) and "the extent equals the
exact componentwise min/max over the Point Sequence" (the exact min over the
x-coordinates `[20]` is `20`, but `minX = 0`). -/
theorem extent_after_reset_cex :
    ((reset (fun θ : ℝ => Real.cos (θ * Real.pi / 180))
        (fun θ : ℝ => Real.sin (θ * Real.pi / 180)) (initSt ℝ)).1).maxX = 20 ∧
    ((reset (fun θ : ℝ => Real.cos (θ * Real.pi / 180))
        (fun θ : ℝ => Real.sin (θ * Real.pi / 180)) (initSt ℝ)).1).minX = 0 ∧
    ((reset (fun θ : ℝ => Real.cos (θ * Real.pi / 180))
        (fun θ : ℝ => Real.sin (θ * Real.pi / 180)) (initSt ℝ)).1).points
      = [{ x := 20, y := 0 }] ∧
    (20 : ℝ) ≠ 0 := by
  norm_num [reset, update, zeroed, initSt, max_def, min_def]

/-- C9 counterexample: after `reset()` and zero `step()` calls the point
sequence already has length 1 (reset's internal `update()`), refuting
"after `n` step() calls from a reset state the length is exactly `n`"
at `n = 0`. -/
theorem reset_point_count_cex :
    ((reset (fun θ : ℝ => Real.cos (θ * Real.pi / 180))
        (fun θ : ℝ => Real.sin (θ * Real.pi / 180)) (initSt ℝ)).1).points.length = 1 ∧
    (1 : ℕ) ≠ 0 := by
  constructor
  · simp [reset, update, zeroed]
  · decide

/-- C9 amended: from the zeroed walker state (the state `reset()` establishes
before its internal step) with step length `L` and delta `d`, `n` updates
yield exactly `n` points, and every consecutive displacement has Euclidean
magnitude `|L|` (equal to the step length whenever it is nonnegative);
equivalently, after `reset()` and `n` further steps the sequence has `n + 1`
points with the same displacement property. -/
theorem step_count_and_magnitude (L d : ℝ) (n i : ℕ) (h : i + 1 < n) :
    ((update (fun θ : ℝ => Real.cos (θ * Real.pi / 180))
        (fun θ : ℝ => Real.sin (θ * Real.pi / 180)))^[n]
        (zeroed { initSt ℝ with stepSize := L, angleStepSize := d })).points.length = n ∧
    ∃ p q : Point ℝ,
      ((update (fun θ : ℝ => Real.cos (θ * Real.pi / 180))
          (fun θ : ℝ => Real.sin (θ * Real.pi / 180)))^[n]
          (zeroed { initSt ℝ with stepSize := L, angleStepSize := d })).points[i]?
        = some p ∧
      ((update (fun θ : ℝ => Real.cos (θ * Real.pi / 180))
          (fun θ : ℝ => Real.sin (θ * Real.pi / 180)))^[n]
          (zeroed { initSt ℝ with stepSize := L, angleStepSize := d })).points[i + 1]?
        = some q ∧
      Real.sqrt ((q.x - p.x) ^ 2 + (q.y - p.y) ^ 2) = |L| := by
  have hi : i < n := Nat.lt_of_succ_lt h
  rw [iterate_zeroed_spec]
  refine ⟨by simp, ?_⟩
  refine ⟨{ x := walkX (fun θ : ℝ => Real.cos (θ * Real.pi / 180)) L d (i + 1)
            y := walkY (fun θ : ℝ => Real.sin (θ * Real.pi / 180)) L d (i + 1) },
          { x := walkX (fun θ : ℝ => Real.cos (θ * Real.pi / 180)) L d (i + 1 + 1)
            y := walkY (fun θ : ℝ => Real.sin (θ * Real.pi / 180)) L d (i + 1 + 1) },
          ?_, ?_, ?_⟩
  · simp [List.getElem?_range, hi]
  · simp [List.getElem?_range, h]
  · have hx : walkX (fun θ : ℝ => Real.cos (θ * Real.pi / 180)) L d (i + 1 + 1)
        - walkX (fun θ : ℝ => Real.cos (θ * Real.pi / 180)) L d (i + 1)
        = Real.cos (dirAt d (i + 1) * Real.pi / 180) * L := by
      simp only [walkX]
      ring
    have hy : walkY (fun θ : ℝ => Real.sin (θ * Real.pi / 180)) L d (i + 1 + 1)
        - walkY (fun θ : ℝ => Real.sin (θ * Real.pi / 180)) L d (i + 1)
        = Real.sin (dirAt d (i + 1) * Real.pi / 180) * L := by
      simp only [walkY]
      ring
    rw [hx, hy, mul_pow, mul_pow, ← add_mul, Real.cos_sq_add_sin_sq, one_mul,
      Real.sqrt_sq_eq_abs]

/-- Witness for C9's amended theorem at `L = 20`, `d = 10`, `n = 3`,
`i = 0`. -/
theorem step_count_and_magnitude_w :
    ((update (fun θ : ℝ => Real.cos (θ * Real.pi / 180))
        (fun θ : ℝ => Real.sin (θ * Real.pi / 180)))^[3]
        (zeroed { initSt ℝ with stepSize := 20, angleStepSize := 10 })).points.length = 3 ∧
    ∃ p q : Point ℝ,
      ((update (fun θ : ℝ => Real.cos (θ * Real.pi / 180))
          (fun θ : ℝ => Real.sin (θ * Real.pi / 180)))^[3]
          (zeroed { initSt ℝ with stepSize := 20, angleStepSize := 10 })).points[0]?
        = some p ∧
      ((update (fun θ : ℝ => Real.cos (θ * Real.pi / 180))
          (fun θ : ℝ => Real.sin (θ * Real.pi / 180)))^[3]
          (zeroed { initSt ℝ with stepSize := 20, angleStepSize := 10 })).points[0 + 1]?
        = some q ∧
      Real.sqrt ((q.x - p.x) ^ 2 + (q.y - p.y) ^ 2) = |(20 : ℝ)| :=
  step_count_and_magnitude 20 10 3 0 (by norm_num)

/-- C6 counterexample: with step length 20 and delta 10, the second point of
the walk is `(40, 0)` — the second step is still taken at heading 0, because
the heading increment only starts to act one step later — and not
`P0 + 20·(cos 10°, sin 10°)` as the claim states (their y-coordinates
differ: `0 ≠ 20·sin 10° > 0`). -/
theorem scenario_point1_cex :
    (update (fun θ : ℝ => Real.cos (θ * Real.pi / 180))
        (fun θ : ℝ => Real.sin (θ * Real.pi / 180))
        (update (fun θ : ℝ => Real.cos (θ * Real.pi / 180))
          (fun θ : ℝ => Real.sin (θ * Real.pi / 180))
          (update (fun θ : ℝ => Real.cos (θ * Real.pi / 180))
            (fun θ : ℝ => Real.sin (θ * Real.pi / 180))
            (zeroed (initSt ℝ))))).points[1]? = some { x := 40, y := 0 } ∧
    ({ x := 40, y := 0 } : Point ℝ)
      ≠ { x := 20 + 20 * Real.cos (10 * Real.pi / 180)
          y := 20 * Real.sin (10 * Real.pi / 180) } := by
  constructor
  · norm_num [update, zeroed, initSt, Real.cos_zero, Real.sin_zero]
  · intro hEq
    have hs : 0 < Real.sin (10 * Real.pi / 180) := by
      apply Real.sin_pos_of_pos_of_lt_pi
      · positivity
      · nlinarith [Real.pi_pos]
    have h0 : (0 : ℝ) = 20 * Real.sin (10 * Real.pi / 180) := congrArg Point.y hEq
    nlinarith

/-- C6 amended: with step length 20 and delta 10, three `step()` calls from
the zeroed state produce `P0 = (20, 0)`, `P1 = (40, 0)` (heading still 0) and
`P2 = P1 + 20·(cos 10°, sin 10°)`, and the extent is then `minX = 0`,
`maxX = P2.x = 40 + 20·cos 10° (≈ 59.70)`, `minY = 0`,
`maxY = P2.y = 20·sin 10° (≈ 3.47)`. -/
theorem scenario_three_steps :
    (update (fun θ : ℝ => Real.cos (θ * Real.pi / 180))
        (fun θ : ℝ => Real.sin (θ * Real.pi / 180))
        (update (fun θ : ℝ => Real.cos (θ * Real.pi / 180))
          (fun θ : ℝ => Real.sin (θ * Real.pi / 180))
          (update (fun θ : ℝ => Real.cos (θ * Real.pi / 180))
            (fun θ : ℝ => Real.sin (θ * Real.pi / 180))
            (zeroed (initSt ℝ))))).points
      = [{ x := 20, y := 0 }, { x := 40, y := 0 },
         { x := 40 + 20 * Real.cos (10 * Real.pi / 180)
           y := 20 * Real.sin (10 * Real.pi / 180) }] ∧
    (update (fun θ : ℝ => Real.cos (θ * Real.pi / 180))
        (fun θ : ℝ => Real.sin (θ * Real.pi / 180))
        (update (fun θ : ℝ => Real.cos (θ * Real.pi / 180))
          (fun θ : ℝ => Real.sin (θ * Real.pi / 180))
          (update (fun θ : ℝ => Real.cos (θ * Real.pi / 180))
            (fun θ : ℝ => Real.sin (θ * Real.pi / 180))
            (zeroed (initSt ℝ))))).minX = 0 ∧
    (update (fun θ : ℝ => Real.cos (θ * Real.pi / 180))
        (fun θ : ℝ => Real.sin (θ * Real.pi / 180))
        (update (fun θ : ℝ => Real.cos (θ * Real.pi / 180))
          (fun θ : ℝ => Real.sin (θ * Real.pi / 180))
          (update (fun θ : ℝ => Real.cos (θ * Real.pi / 180))
            (fun θ : ℝ => Real.sin (θ * Real.pi / 180))
            (zeroed (initSt ℝ))))).maxX = 40 + 20 * Real.cos (10 * Real.pi / 180) ∧
    (update (fun θ : ℝ => Real.cos (θ * Real.pi / 180))
        (fun θ : ℝ => Real.sin (θ * Real.pi / 180))
        (update (fun θ : ℝ => Real.cos (θ * Real.pi / 180))
          (fun θ : ℝ => Real.sin (θ * Real.pi / 180))
          (update (fun θ : ℝ => Real.cos (θ * Real.pi / 180))
            (fun θ : ℝ => Real.sin (θ * Real.pi / 180))
            (zeroed (initSt ℝ))))).minY = 0 ∧
    (update (fun θ : ℝ => Real.cos (θ * Real.pi / 180))
        (fun θ : ℝ => Real.sin (θ * Real.pi / 180))
        (update (fun θ : ℝ => Real.cos (θ * Real.pi / 180))
          (fun θ : ℝ => Real.sin (θ * Real.pi / 180))
          (update (fun θ : ℝ => Real.cos (θ * Real.pi / 180))
            (fun θ : ℝ => Real.sin (θ * Real.pi / 180))
            (zeroed (initSt ℝ))))).maxY = 20 * Real.sin (10 * Real.pi / 180) := by
  have hc : (0 : ℝ) ≤ Real.cos (10 * Real.pi / 180) := by
    apply Real.cos_nonneg_of_mem_Icc
    constructor
    · nlinarith [Real.pi_pos]
    · nlinarith [Real.pi_pos]
  have hs : (0 : ℝ) ≤ Real.sin (10 * Real.pi / 180) := by
    apply Real.sin_nonneg_of_nonneg_of_le_pi
    · positivity
    · nlinarith [Real.pi_pos]
  and_intros <;>
      norm_num [update, zeroed, initSt, Real.cos_zero, Real.sin_zero, min_def, max_def] <;>
    first
      | (constructor <;> ring)
      | (split_ifs <;> ring)
      | (intro hcontra; linarith)

end EulersSpiral
